import Mathlib

/-!
Verification of the Kanpy workspace engine against its specification.

The development shallowly embeds the Python sources:
- `AppClasses` embeds `app_classes.py` (registry loading, workspace
  open/save, serialization, passwords);
- `TempClasses` embeds `temp_classes.py` (Card/List/Board containers and
  the stamping variant of save);
- `BinRestore` embeds the bin-restore orchestration of `main.py`
  (`BinScreen.restore_item`) over the final entity model; the final
  Board/Bin helper methods are imported by `main.py` from a version of
  `app_classes.py` that is not in the repository snapshot, so those
  helpers are modelled from the specification.

Stateful Python methods become functions from an explicit state to a
result paired with the new state.  Python `None` becomes `Option.none`.
-/

/-- Model of a `datetime.datetime` instant.  Instants are abstract points
in time; on Python datetimes `fromisoformat (d.isoformat ())` returns a
datetime equal to `d`, so the serialized `last_edited` field carries the
instant itself rather than its ISO text. -/
abbrev DateTime := Nat

namespace AppClasses

/-- Constant `MAX_PASSWORD_ATTEMPTS` of `app_classes.py` (line 12). -/
def MAX_PASSWORD_ATTEMPTS : Nat := 3

/-- The minimal `Board` of `app_classes.py` (lines 311 to 347).  The field
`lists` is the placeholder `self.lists = []`; its elements are never
inspected by this file, so they are modelled as `Unit`.  The cyclic
back-reference `self.workspace` is omitted: it points back to the owning
workspace and is not part of the serialized tree. -/
structure Board where
  name : String
  lists : List Unit
deriving DecidableEq, Repr

/-- Dictionary produced by `Board.to_dict`: `{"name": ..., "lists_count": ...}`. -/
structure BoardDict where
  name : String
  lists_count : Nat
deriving DecidableEq, Repr

/-- Method `Board.to_dict` (lines 331 to 336): serializes only the name and
the number of lists. -/
def Board.to_dict (b : Board) : BoardDict :=
  { name := b.name, lists_count := b.lists.length }

/-- Classmethod `Board.from_dict` (lines 338 to 347): rebuilds a board from
its name only; the `lists` placeholder starts empty and `lists_count` is
ignored. -/
def Board.from_dict (d : BoardDict) : Board :=
  { name := d.name, lists := [] }

/-- The `workspace` class of `app_classes.py` (lines 350 to 524).  The
field `pwd` models `self._pwd` (`None` when no password is set). -/
structure workspace where
  name : String
  pwd : Option String
  last_edited : DateTime
  board : Board
deriving DecidableEq, Repr

/-- Dictionary produced by `workspace.to_dict`.  In the source,
`board_data` is `None` exactly when the workspace has no board object;
`__init__` always installs a board, but the `None` case is kept for
faithfulness of `from_dict`. -/
structure WSDict where
  name : String
  pwd : Option String
  last_edited : DateTime
  board_data : Option BoardDict
deriving DecidableEq, Repr

/-- Method `workspace.to_dict` (lines 478 to 493).  The comment in the
source warns that it stores the plain text password. -/
def workspace.to_dict (w : workspace) : WSDict :=
  { name := w.name
    pwd := w.pwd
    last_edited := w.last_edited
    board_data := some w.board.to_dict }

/-- Apostrophe character, used to spell the default board name
`f"{name}'s Board"` from `workspace.__init__` (line 402). -/
def apos : String := String.singleton (Char.ofNat 39)

/-- Classmethod `workspace.from_dict` (lines 495 to 524) combined with the
`__init__` handling of a missing board (lines 400 to 408): when
`board_data` is absent a fresh default board named `f"{name}'s Board"` is
created, otherwise `Board.from_dict` rebuilds it. -/
def workspace.from_dict (d : WSDict) : workspace :=
  let board :=
    match d.board_data with
    | some bd => Board.from_dict bd
    | none => { name := d.name ++ apos ++ "s Board", lists := [] }
  { name := d.name, pwd := d.pwd, last_edited := d.last_edited, board := board }

/-- Method `workspace.check_pwd` (lines 411 to 419): true when no password
is set, otherwise plain text comparison. -/
def workspace.check_pwd (w : workspace) (password_attempt : String) : Bool :=
  match w.pwd with
  | none => true
  | some p => p == password_attempt

/-- Method `workspace.update_last_edited` (lines 456 to 458): stamps the
current time. -/
def workspace.update_last_edited (w : workspace) (now : DateTime) : workspace :=
  { w with last_edited := now }

/-- Method `workspace.set_pwd` (lines 421 to 454).  `now` is the current
UTC time consumed by the final `update_last_edited` call.  In the source
`new_password` may also be `None`; only the string case is modelled, with
the empty string playing the falsy role of line 447. -/
def workspace.set_pwd (w : workspace) (new_password : String)
    (old_password_attempt : Option String) (now : DateTime) : Bool × workspace :=
  match w.pwd with
  | some _ =>
    match old_password_attempt with
    | none => (false, w)
    | some old =>
      if w.check_pwd old then
        let newPwd := if new_password == "" then none else some new_password
        (true, ({ w with pwd := newPwd }).update_last_edited now)
      else
        (false, w)
  | none =>
    let newPwd := if new_password == "" then none else some new_password
    (true, ({ w with pwd := newPwd }).update_last_edited now)

/-- Truthiness of `self._pwd` as used by `if ws_obj._pwd:` on line 230:
`None` and the empty string are falsy. -/
def pwdTruthy : Option String → Bool
  | none => false
  | some s => !(s == "")

/-- Observable state of a workspace data file for `open_workspace`:
either the file is absent (or unreadable, which the source also turns
into a `None` return), or it holds text that fails `json.load`, or it
holds the dictionary serialization of a workspace. -/
inductive DataFileContent where
  | missing
  | badJson
  | wsdict (d : WSDict)
deriving DecidableEq, Repr

/-- Mutable state of the `workspace_manager` class (lines 18 to 31):
the registry mapping plus the single open-workspace slot.  The Python
dict `available_workspaces` has unique keys; it is modelled as an
association list read through first-match lookup. -/
structure workspace_manager where
  available_workspaces : List (String × String)
  current_workspace_object : Option workspace
deriving DecidableEq, Repr

/-- Dictionary lookup `self.available_workspaces[name]`, together with the
membership test on line 209. -/
def lookupName (l : List (String × String)) (k : String) : Option String :=
  (l.find? (fun e => e.fst == k)).map (fun e => e.snd)

/-- Password prompt loop of `open_workspace` (lines 231 to 252).  `fuel`
is the number of attempts still allowed (`MAX_PASSWORD_ATTEMPTS` minus
`attempt_count`); `inputs` is the stream of values returned by `input()`.
Returns true exactly when some allowed attempt passes `check_pwd` before
the sentinel `"CANCEL"` occurs.  An exhausted input stream raises at the
blocked `input()` call and is caught by the generic handler on line 264,
which returns `None`; that is the empty-list case. -/
def pwd_loop (ws : workspace) : Nat → List String → Bool
  | 0, _ => false
  | _ + 1, [] => false
  | fuel + 1, a :: rest =>
    if a == "CANCEL" then false
    else if ws.check_pwd a then true
    else pwd_loop ws fuel rest

/-- Method `workspace_manager.open_workspace` (lines 200 to 266).  `fs`
maps a workspace directory path to the state of the
`workspace_data.json` inside it; `inputs` feeds the password prompts.
Returns the opened workspace (or `none`) together with the new manager
state. -/
def open_workspace (st : workspace_manager) (fs : String → DataFileContent)
    (inputs : List String) (name_to_open : String) :
    Option workspace × workspace_manager :=
  match lookupName st.available_workspaces name_to_open with
  | none => (none, st)
  | some workspace_path =>
    match fs workspace_path with
    | .missing => (none, st)
    | .badJson => (none, st)
    | .wsdict d =>
      let ws_obj := workspace.from_dict d
      if pwdTruthy ws_obj.pwd then
        if pwd_loop ws_obj MAX_PASSWORD_ATTEMPTS inputs then
          (some ws_obj, { st with current_workspace_object := some ws_obj })
        else
          (none, st)
      else
        (some ws_obj, { st with current_workspace_object := some ws_obj })

/-- Method `workspace_manager.save_current_workspace` (lines 268 to 300).
Returns the write it performs, as the target directory path paired with
the dictionary dumped to `workspace_data.json`, or `none` when the save
fails (no open workspace, or the open workspace is missing from the
registry).  `now` is the current UTC time at the moment of the call; this
implementation never reads the clock, so the result does not depend on
it.  I/O errors of the write itself are not modelled: the claims concern
the content written. -/
def save_current_workspace (st : workspace_manager) (now : DateTime) :
    Option (String × WSDict) :=
  match st.current_workspace_object with
  | none => none
  | some ws_obj =>
    match lookupName st.available_workspaces ws_obj.name with
    | none => none
    | some workspace_path => some (workspace_path, ws_obj.to_dict)

/-- Value found at a registry key in the loaded JSON dictionary: the
cleanup loop distinguishes strings from every other JSON value
(line 113, `not isinstance(path_val, str)`). -/
inductive RegValue where
  | str (s : String)
  | nonStr
deriving DecidableEq, Repr

/-- Filesystem facts consulted while loading the registry.  The source
only ever calls `os.path.exists` (line 113); the directory and data-file
observations are carried so that specification-level statements about
them can be expressed. -/
structure RegistryFS where
  path_exists : String → Bool
  path_isdir : String → Bool
  path_has_data_file : String → Bool

/-- Content of the central `workspaces.json` file as `load_workspaces`
classifies it (lines 67 to 106): absent, whitespace only, text that
fails `json.loads`, valid JSON that is not a dictionary, or a JSON
dictionary of entries.  I/O and unexpected read errors take the same
reset branch as malformed JSON. -/
inductive ConfigFileState where
  | missing
  | whitespaceOnly
  | badJson
  | jsonNonDict
  | jsonDict (entries : List (String × RegValue))
deriving DecidableEq, Repr

/-- Result of `load_workspaces`: the in-memory registry after loading and
cleanup, and whether `_save_workspaces` rewrote the file (line 120). -/
structure LoadResult where
  registry : List (String × RegValue)
  rewritten : Bool
deriving DecidableEq, Repr

/-- Cleanup loop of `load_workspaces` (lines 108 to 117): every entry
whose value is not a string, or whose path fails `os.path.exists`, is
deleted; the rest keep their order. -/
def cleanup_registry (reg : List (String × RegValue)) (fs : RegistryFS) :
    List (String × RegValue) :=
  reg.filter (fun e =>
    match e.snd with
    | .str s => fs.path_exists s
    | .nonStr => false)

/-- Method `workspace_manager.load_workspaces` (lines 57 to 129), reduced
to its registry content: classify the config file, reset to empty on any
problem, prune entries with invalid paths, and rewrite the file when it
was missing, problematic, or pruned. -/
def load_workspaces (cfg : ConfigFileState) (fs : RegistryFS) : LoadResult :=
  let p :=
    match cfg with
    | .missing => (false, false, ([] : List (String × RegValue)))
    | .whitespaceOnly => (true, true, [])
    | .badJson => (true, true, [])
    | .jsonNonDict => (true, true, [])
    | .jsonDict es => (true, false, es)
  let initial_file_exists := p.fst
  let file_was_problematic := p.snd.fst
  let reg0 := p.snd.snd
  let reg1 := cleanup_registry reg0 fs
  let workspaces_cleaned := decide (reg1.length < reg0.length)
  { registry := reg1
    rewritten := !initial_file_exists || file_was_problematic || workspaces_cleaned }

end AppClasses

namespace TempClasses

/-- The `Card` class of `temp_classes.py` (lines 9 to 42).  The source
name is `Card`; the `T` prefix avoids clashing with the final-model card
used by the bin-restore embedding. -/
structure TCard where
  card_id : String
  name : String
  description : String
deriving DecidableEq, Repr

/-- The `List` class of `temp_classes.py` (lines 45 to 118).  The source
name is `List`, which collides with the Lean core list type. -/
structure TList where
  list_id : String
  list_name : String
  description : String
  cards : List TCard
deriving DecidableEq, Repr

/-- The `Board` class of `temp_classes.py` (lines 122 to 188). -/
structure TBoard where
  board_id : String
  name : String
  lists : List TList
deriving DecidableEq, Repr

/-- Method `Board.add_list` (lines 136 to 142): appends unless a list
with the same `list_id` is already on the board, in which case it only
prints a warning and leaves the board unchanged. -/
def TBoard.add_list (b : TBoard) (list_object : TList) : TBoard :=
  if b.lists.any (fun l => l.list_id == list_object.list_id) then b
  else { b with lists := b.lists ++ [list_object] }

/-- Method `Board.create_list` (lines 145 to 149): builds a new `List`
with a freshly generated id, hands it to `add_list`, and returns the new
list object unconditionally.  `fresh_id` stands for the `uuid.uuid4()`
value generated inside `List.__init__`. -/
def TBoard.create_list (b : TBoard) (fresh_id : String)
    (list_name : String) (description : String) : TList × TBoard :=
  let new_list : TList :=
    { list_id := fresh_id, list_name := list_name
      description := description, cards := [] }
  (new_list, b.add_list new_list)

/-- The `workspace` class of `temp_classes.py` (lines 406 to 542).  As in
the app_classes embedding, `pwd` models `self._pwd` and the cyclic board
back-reference is omitted. -/
structure TWorkspace where
  name : String
  pwd : Option String
  last_edited : DateTime
  board : TBoard
deriving DecidableEq, Repr

/-- Dictionary produced by `workspace.to_dict` in `temp_classes.py`
(lines 496 to 507).  `Card.to_dict`, `List.to_dict` and `Board.to_dict`
there copy every field of their objects, so the `board_data` entry is
carried as the board value itself. -/
structure TWSDict where
  name : String
  pwd : Option String
  last_edited : DateTime
  board_data : TBoard
deriving DecidableEq, Repr

/-- Method `workspace.to_dict` of `temp_classes.py` (lines 496 to 507). -/
def TWorkspace.to_dict (w : TWorkspace) : TWSDict :=
  { name := w.name, pwd := w.pwd
    last_edited := w.last_edited, board_data := w.board }

/-- Method `workspace.update_last_edited` of `temp_classes.py`
(lines 477 to 478). -/
def TWorkspace.update_last_edited (w : TWorkspace) (now : DateTime) : TWorkspace :=
  { w with last_edited := now }

/-- Mutable state of the `workspace_manager` class of `temp_classes.py`
(lines 190 to 194). -/
structure TManager where
  available_workspaces : List (String × String)
  current_workspace_object : Option TWorkspace
deriving DecidableEq, Repr

/-- Method `workspace_manager.save_current_workspace` of
`temp_classes.py` (lines 371 to 397): unlike the `app_classes.py`
version, it calls `ws_obj.update_last_edited()` (line 378) before the
registry lookup and the dump.  Returns the write performed (directory
path and dumped dictionary, or `none` on failure) together with the new
manager state; the stamp mutates the open workspace object, so it is
visible in the state even when the lookup then fails. -/
def tc_save_current_workspace (st : TManager) (now : DateTime) :
    Option (String × TWSDict) × TManager :=
  match st.current_workspace_object with
  | none => (none, st)
  | some ws_obj =>
    let ws := ws_obj.update_last_edited now
    let st' := { st with current_workspace_object := some ws }
    match AppClasses.lookupName st.available_workspaces ws.name with
    | none => (none, st')
    | some workspace_path => (some (workspace_path, ws.to_dict), st')

end TempClasses

namespace BinRestore

/-- Card of the final entity model, after the serialization format of the
specification: `{ name, description, deadline: string|null, priority:
integer, completed: boolean }`. -/
structure FCard where
  name : String
  description : String
  deadline : Option String
  priority : Nat
  completed : Bool
deriving DecidableEq, Repr

/-- List of the final entity model: a named ordered container of cards. -/
structure FList where
  name : String
  description : String
  cards : List FCard
deriving DecidableEq, Repr

/-- Modelled from the spec: `List.add_card` of the final model used by
`BinScreen.restore_item` is not in the repository snapshot; the
specification describes it as an append preserving order. -/
def FList.add_card (l : FList) (c : FCard) : FList :=
  { l with cards := l.cards ++ [c] }

/-- Archived-card record held by the final Bin: `main.py` reads the keys
`"card"` and `"source_list"` from it (lines 1121 to 1140), and the
specification tags each archived card with its originating list name and
a deletion timestamp. -/
structure CardEntry where
  card : FCard
  source_list : String
  deleted_at : DateTime
deriving DecidableEq, Repr

/-- Bin of the final entity model: archived lists plus tagged archived
cards. -/
structure FBin where
  archived_lists : List FList
  archived_cards : List CardEntry
deriving DecidableEq, Repr

/-- Modelled from the spec: `Bin._find_card_by_name` of the final model is
not in the repository snapshot; `main.py` line 1136 uses it to fetch the
archived entry for a card name, so it is the first archived entry whose
card bears that name. -/
def FBin.find_card_by_name (b : FBin) (n : String) : Option CardEntry :=
  b.archived_cards.find? (fun e => e.card.name == n)

/-- Modelled from the spec: `Bin.permanently_delete_card(name)` of the
final model is not in the repository snapshot; the specification lists it
as the permanent-delete operation, and its sibling
`permanently_delete_list` in `class_bin.py` (lines 22 to 25) filters out
every archived item bearing the name. -/
def FBin.permanently_delete_card (b : FBin) (n : String) : FBin :=
  { b with archived_cards := b.archived_cards.filter (fun e => !(e.card.name == n)) }

/-- Modelled from the spec: `Bin.restore_list(name)` removes and returns
the first archived list with the given name, as in `class_bin.py`
(lines 16 to 20). -/
def FBin.restore_list (b : FBin) (n : String) : Option FList × FBin :=
  match b.archived_lists.find? (fun l => l.name == n) with
  | none => (none, b)
  | some l =>
    (some l, { b with archived_lists := b.archived_lists.filter (fun x => !(x == l)) })

/-- Board of the final entity model, as far as the bin screen consumes
it: an ordered sequence of live lists and one bin. -/
structure FBoard where
  name : String
  lists : List FList
  bin : FBin
deriving DecidableEq, Repr

/-- Modelled from the spec: `Board._find_list_by_name` of the final model
is not in the repository snapshot; `main.py` line 1141 uses it to fetch
the live list bearing the recorded source-list name. -/
def FBoard.find_list_by_name (b : FBoard) (n : String) : Option FList :=
  b.lists.find? (fun l => l.name == n)

/-- Modelled from the spec: `Board.add_list` of the final model re-attaches
a restored list; the caller-side restore description says the caller
re-attaches it to the board, modelled as an append. -/
def FBoard.add_list (b : FBoard) (l : FList) : FBoard :=
  { b with lists := b.lists ++ [l] }

/-- Replace the first list named `lname` with the same list extended by
card `c`: `main.py` line 1145 mutates the list object that
`_find_list_by_name` returned. -/
def attach_to_first (ls : List FList) (lname : String) (c : FCard) : List FList :=
  match ls with
  | [] => []
  | l :: rest =>
    if l.name == lname then l.add_card c :: rest
    else l :: attach_to_first rest lname c

/-- Which kind of bin item a restore targets (`item_type` argument of
`BinScreen.restore_item`). -/
inductive ItemType where
  | list
  | card
deriving DecidableEq, Repr

/-- Outcome reported by the restore flow, mirroring the toasts of
`BinScreen.restore_item`. -/
inductive RestoreOutcome where
  | noAction
  | listRestored (name : String)
  | cardRestored (source_list : String)
  | cardDeletedSourceMissing (source_list : String)
deriving DecidableEq, Repr

/-- Method `BinScreen.restore_item` of `main.py` (lines 1125 to 1152),
acting on the selected board.  For a card: look the entry up in the bin;
if the recorded source list still exists on the board, permanently remove
the entry from the bin and append the card back to that list; otherwise
permanently remove the entry from the bin and attach it nowhere. -/
def restore_item (board : FBoard) (item_name : String) (item_type : ItemType) :
    FBoard × RestoreOutcome :=
  match item_type with
  | .list =>
    match board.bin.restore_list item_name with
    | (none, _) => (board, .noAction)
    | (some restored, bin') =>
      ({ board with bin := bin' }.add_list restored, .listRestored item_name)
  | .card =>
    match board.bin.find_card_by_name item_name with
    | none => (board, .noAction)
    | some entry =>
      match board.find_list_by_name entry.source_list with
      | some _ =>
        let bin' := board.bin.permanently_delete_card item_name
        let lists' := attach_to_first board.lists entry.source_list entry.card
        ({ board with bin := bin', lists := lists' }, .cardRestored entry.source_list)
      | none =>
        let bin' := board.bin.permanently_delete_card item_name
        ({ board with bin := bin' }, .cardDeletedSourceMissing entry.source_list)

end BinRestore

/-! Concrete fixture values used by the claim counterexamples and
witnesses below. -/

/-- Workspace whose board carries one (placeholder) list entry: the
round trip drops it. -/
def c1w : AppClasses.workspace :=
  { name := "W", pwd := none, last_edited := 0
    board := { name := "WB", lists := [()] } }


/-- Workspace A, open in the fixture manager state for claim C2. -/
def c2wsA : AppClasses.workspace :=
  { name := "A", pwd := none, last_edited := 0
    board := { name := "AB", lists := [] } }

/-- Stored serialization of workspace B for claim C2 (no password). -/
def c2dB : AppClasses.WSDict :=
  { name := "B", pwd := none, last_edited := 1
    board_data := some { name := "BB", lists_count := 0 } }

/-- Workspace B as `open_workspace` reconstructs it. -/
def c2wsB : AppClasses.workspace := AppClasses.workspace.from_dict c2dB

/-- Manager state with workspace A currently open and both A and B
registered. -/
def c2st : AppClasses.workspace_manager :=
  { available_workspaces := [("A", "pA"), ("B", "pB")]
    current_workspace_object := some c2wsA }

/-- Filesystem holding the data file of workspace B. -/
def c2fs : String → AppClasses.DataFileContent :=
  fun p => if p == "pB" then .wsdict c2dB else .missing

/-- Password-protected workspace fixture for claim C3. -/
def c3ws : AppClasses.workspace :=
  { name := "S", pwd := some "secret", last_edited := 0
    board := { name := "SB", lists := [] } }

/-- Manager state with the password-protected workspace open. -/
def c3st : AppClasses.workspace_manager :=
  { available_workspaces := [("S", "pS")]
    current_workspace_object := some c3ws }

/-- Board fixture for claim C4, already holding a list named `"Todo"`. -/
def c4b : TempClasses.TBoard :=
  { board_id := "b0", name := "Board"
    lists := [{ list_id := "id1", list_name := "Todo"
                description := "d", cards := [] }] }

/-- Archived card fixture for claim C5. -/
def c5card : BinRestore.FCard :=
  { name := "X", description := "", deadline := none
    priority := 0, completed := false }

/-- Board fixture for claim C5: the bin holds card X archived from the
since-deleted list A, while only list Keep is still live. -/
def c5b : BinRestore.FBoard :=
  { name := "B"
    lists := [{ name := "Keep", description := "", cards := [] }]
    bin := { archived_lists := []
             archived_cards := [{ card := c5card, source_list := "A", deleted_at := 0 }] } }

/-- Filesystem fixture for claim C6: path `"p"` exists and is a
directory, but holds no per-workspace data file. -/
def c6fs : AppClasses.RegistryFS :=
  { path_exists := fun p => p == "p"
    path_isdir := fun p => p == "p"
    path_has_data_file := fun _ => false }

/-- Stale open workspace fixture for claim C8 (app_classes manager). -/
def c8ws : AppClasses.workspace :=
  { name := "A", pwd := none, last_edited := 0
    board := { name := "AB", lists := [] } }

/-- Manager state for claim C8 (app_classes manager). -/
def c8st : AppClasses.workspace_manager :=
  { available_workspaces := [("A", "pA")]
    current_workspace_object := some c8ws }

/-- Open workspace fixture for claim C8 (temp_classes manager). -/
def c8tws : TempClasses.TWorkspace :=
  { name := "A", pwd := none, last_edited := 0
    board := { board_id := "b", name := "B", lists := [] } }

/-- Manager state for claim C8 (temp_classes manager). -/
def c8tst : TempClasses.TManager :=
  { available_workspaces := [("A", "pA")]
    current_workspace_object := some c8tws }

/-- Dictionary the temp_classes save writes at save time 5: stamped. -/
def c8dexp : TempClasses.TWSDict :=
  { name := "A", pwd := none, last_edited := 5
    board_data := { board_id := "b", name := "B", lists := [] } }

/-- Stored serialization of a password-protected workspace for claim C9. -/
def c9d : AppClasses.WSDict :=
  { name := "B", pwd := some "pw", last_edited := 0
    board_data := some { name := "BB", lists_count := 0 } }

/-- Manager state for claim C9. -/
def c9st : AppClasses.workspace_manager :=
  { available_workspaces := [("B", "pB")]
    current_workspace_object := none }

/-- Filesystem for claim C9. -/
def c9fs : String → AppClasses.DataFileContent :=
  fun p => if p == "pB" then .wsdict c9d else .missing

/-- Stored serialization whose persisted password field is the empty
string, for claim C10. -/
def c10d : AppClasses.WSDict :=
  { name := "E", pwd := some "", last_edited := 0
    board_data := some { name := "EB", lists_count := 0 } }

/-- Manager state for claim C10. -/
def c10st : AppClasses.workspace_manager :=
  { available_workspaces := [("E", "pE")]
    current_workspace_object := none }

/-- Filesystem for claim C10. -/
def c10fs : String → AppClasses.DataFileContent :=
  fun p => if p == "pE" then .wsdict c10d else .missing

/-! Helper lemmas shared by the claim proofs: unfolding equations for
`open_workspace` under each classification of the registry lookup and
the data file, and two facts about the password prompt loop. -/

/-- Unfolding equation: opening an unregistered name fails and leaves the
state alone. -/
theorem open_workspace_no_entry (st : AppClasses.workspace_manager)
    (fs : String → AppClasses.DataFileContent) (inputs : List String) (n : String)
    (hl : AppClasses.lookupName st.available_workspaces n = none) :
    AppClasses.open_workspace st fs inputs n = (none, st) := by
  unfold AppClasses.open_workspace
  simp only [hl]

/-- Unfolding equation: a missing data file fails the open and leaves the
state alone. -/
theorem open_workspace_file_missing (st : AppClasses.workspace_manager)
    (fs : String → AppClasses.DataFileContent) (inputs : List String) (n p : String)
    (hl : AppClasses.lookupName st.available_workspaces n = some p)
    (hf : fs p = AppClasses.DataFileContent.missing) :
    AppClasses.open_workspace st fs inputs n = (none, st) := by
  unfold AppClasses.open_workspace
  simp only [hl, hf]

/-- Unfolding equation: an unparsable data file fails the open and leaves
the state alone. -/
theorem open_workspace_file_badjson (st : AppClasses.workspace_manager)
    (fs : String → AppClasses.DataFileContent) (inputs : List String) (n p : String)
    (hl : AppClasses.lookupName st.available_workspaces n = some p)
    (hf : fs p = AppClasses.DataFileContent.badJson) :
    AppClasses.open_workspace st fs inputs n = (none, st) := by
  unfold AppClasses.open_workspace
  simp only [hl, hf]

/-- Unfolding equation for a readable data file: the password loop gates
the result, and the slot is updated exactly on success. -/
theorem open_workspace_file_wsdict (st : AppClasses.workspace_manager)
    (fs : String → AppClasses.DataFileContent) (inputs : List String) (n p : String)
    (d : AppClasses.WSDict)
    (hl : AppClasses.lookupName st.available_workspaces n = some p)
    (hf : fs p = AppClasses.DataFileContent.wsdict d) :
    AppClasses.open_workspace st fs inputs n =
      (if AppClasses.pwdTruthy (AppClasses.workspace.from_dict d).pwd then
        (if AppClasses.pwd_loop (AppClasses.workspace.from_dict d)
              AppClasses.MAX_PASSWORD_ATTEMPTS inputs then
          (some (AppClasses.workspace.from_dict d),
            { st with current_workspace_object := some (AppClasses.workspace.from_dict d) })
        else (none, st))
      else
        (some (AppClasses.workspace.from_dict d),
          { st with current_workspace_object := some (AppClasses.workspace.from_dict d) })) := by
  unfold AppClasses.open_workspace
  simp only [hl, hf]

/-- The password loop consumes at most its fuel many inputs. -/
theorem pwd_loop_take (ws : AppClasses.workspace) :
    ∀ (n : Nat) (inputs : List String),
      AppClasses.pwd_loop ws n inputs = AppClasses.pwd_loop ws n (inputs.take n) := by
  intro n
  induction n with
  | zero => intro inputs; rfl
  | succ m ih =>
    intro inputs
    cases inputs with
    | nil => rfl
    | cons a rest =>
      rw [List.take_succ_cons]
      unfold AppClasses.pwd_loop
      cases h1 : a == "CANCEL"
      · cases h2 : ws.check_pwd a <;> simp [h1, h2, ih rest]
      · simp [h1]

/-- If every consumed attempt is the sentinel or fails the password
check, the loop reports failure. -/
theorem pwd_loop_all_bad (ws : AppClasses.workspace) :
    ∀ (n : Nat) (inputs : List String),
      (∀ a ∈ inputs.take n, a = "CANCEL" ∨ ws.check_pwd a = false) →
      AppClasses.pwd_loop ws n inputs = false := by
  intro n
  induction n with
  | zero => intro inputs _; rfl
  | succ m ih =>
    intro inputs h
    cases inputs with
    | nil => rfl
    | cons a rest =>
      have ha : a = "CANCEL" ∨ ws.check_pwd a = false := by
        refine h a ?_
        rw [List.take_succ_cons]
        exact List.mem_cons_self a _
      have hrest : ∀ x ∈ rest.take m, x = "CANCEL" ∨ ws.check_pwd x = false := by
        intro x hx
        refine h x ?_
        rw [List.take_succ_cons]
        exact List.mem_cons_of_mem a hx
      unfold AppClasses.pwd_loop
      rcases ha with h1 | h1
      · simp [h1]
      · cases hc : a == "CANCEL"
        · simp [hc, h1, ih rest hrest]
        · simp [hc]

/-- Claim C1 counterexample: for the workspace `c1w`, whose board holds
one list, deserializing the serialized form does not give back an equal
tree — `Board.to_dict` stores only `lists_count` and `Board.from_dict`
ignores it, resetting `lists` to empty. -/
theorem c1_counterexample :
    AppClasses.workspace.from_dict (AppClasses.workspace.to_dict c1w) ≠ c1w := by
  decide

/-- Claim C1 (amended): the plaintext round trip
`from_dict (to_dict tree)` returns a tree equal to the original exactly
when the board has no lists; the workspace name, password, timestamp and
board name always survive, but the board content does not. -/
theorem c1_round_trip_iff_board_empty :
    ∀ w : AppClasses.workspace,
      AppClasses.workspace.from_dict (AppClasses.workspace.to_dict w) = w
        ↔ w.board.lists = [] := by
  intro w
  cases w with
  | mk name pwd le board =>
    cases board with
    | mk bname blists =>
      simp [AppClasses.workspace.from_dict, AppClasses.workspace.to_dict,
        AppClasses.Board.from_dict, AppClasses.Board.to_dict, eq_comm]

/-- Claim C2 counterexample: with workspace A open, `open_workspace` on
workspace B does not fail — it returns B and installs B in the
open-workspace slot, evicting A.  The source never consults the current
slot before opening. -/
theorem c2_counterexample :
    (AppClasses.open_workspace c2st c2fs [] "B").fst = some c2wsB
    ∧ (AppClasses.open_workspace c2st c2fs [] "B").snd.current_workspace_object
        = some c2wsB
    ∧ c2wsB ≠ c2wsA := by
  decide

/-- Claim C2 (amended): `open_workspace` enforces no exclusivity — its
returned workspace is the same whether or not some workspace is already
open, and on success the newly opened workspace replaces whatever was in
the open slot. -/
theorem c2_open_ignores_current_slot :
    ∀ (st : AppClasses.workspace_manager) (fs : String → AppClasses.DataFileContent)
      (inputs : List String) (n : String),
      (AppClasses.open_workspace st fs inputs n).fst
        = (AppClasses.open_workspace
            { st with current_workspace_object := none } fs inputs n).fst
      ∧ ∀ ws, (AppClasses.open_workspace st fs inputs n).fst = some ws →
          (AppClasses.open_workspace st fs inputs n).snd.current_workspace_object
            = some ws := by
  intro st fs inputs n
  constructor
  · rcases hl : AppClasses.lookupName st.available_workspaces n with _ | p
    · rw [open_workspace_no_entry st fs inputs n hl,
        open_workspace_no_entry { st with current_workspace_object := none } fs inputs n hl]
    · rcases hf : fs p with _ | _ | d
      · rw [open_workspace_file_missing st fs inputs n p hl hf,
          open_workspace_file_missing { st with current_workspace_object := none }
            fs inputs n p hl hf]
      · rw [open_workspace_file_badjson st fs inputs n p hl hf,
          open_workspace_file_badjson { st with current_workspace_object := none }
            fs inputs n p hl hf]
      · rw [open_workspace_file_wsdict st fs inputs n p d hl hf,
          open_workspace_file_wsdict { st with current_workspace_object := none }
            fs inputs n p d hl hf]
        cases ht : AppClasses.pwdTruthy (AppClasses.workspace.from_dict d).pwd <;>
          cases hp : AppClasses.pwd_loop (AppClasses.workspace.from_dict d)
            AppClasses.MAX_PASSWORD_ATTEMPTS inputs <;>
          simp [ht, hp]
  · intro ws h
    rcases hl : AppClasses.lookupName st.available_workspaces n with _ | p
    · rw [open_workspace_no_entry st fs inputs n hl] at h
      exact absurd h (by simp)
    · rcases hf : fs p with _ | _ | d
      · rw [open_workspace_file_missing st fs inputs n p hl hf] at h
        exact absurd h (by simp)
      · rw [open_workspace_file_badjson st fs inputs n p hl hf] at h
        exact absurd h (by simp)
      · rw [open_workspace_file_wsdict st fs inputs n p d hl hf] at h ⊢
        cases ht : AppClasses.pwdTruthy (AppClasses.workspace.from_dict d).pwd <;>
          cases hp : AppClasses.pwd_loop (AppClasses.workspace.from_dict d)
            AppClasses.MAX_PASSWORD_ATTEMPTS inputs <;>
          simp [ht, hp] at h ⊢ <;>
          simp [h]

/-- Claim C2 amended witness: at the concrete fixture, opening B while A
is open installs B in the slot. -/
theorem c2_open_ignores_current_slot_witness :
    (AppClasses.open_workspace c2st c2fs [] "B").snd.current_workspace_object
      = some c2wsB :=
  (c2_open_ignores_current_slot c2st c2fs [] "B").2 c2wsB (by decide)

/-- Claim C3 counterexample: saving the workspace whose password is
`"secret"` writes a dictionary whose `pwd` field is the cleartext
password.  The persistence path of `app_classes.py` has no encrypted
payload at all, so the cleartext password lands directly in
`workspace_data.json`. -/
theorem c3_counterexample :
    AppClasses.save_current_workspace c3st 7
      = some ("pS", AppClasses.workspace.to_dict c3ws)
    ∧ (AppClasses.workspace.to_dict c3ws).pwd = some "secret" := by
  decide

/-- Claim C3 (amended): the serialized workspace data written by save
contains the password in cleartext — `to_dict` copies `_pwd` verbatim
into the `pwd` field, and `save_current_workspace` writes exactly
`to_dict` of the open workspace. -/
theorem c3_save_writes_cleartext_password :
    (∀ w : AppClasses.workspace, (AppClasses.workspace.to_dict w).pwd = w.pwd)
    ∧ ∀ (st : AppClasses.workspace_manager) (now : DateTime)
        (ws : AppClasses.workspace) (path : String),
        st.current_workspace_object = some ws →
        AppClasses.lookupName st.available_workspaces ws.name = some path →
        AppClasses.save_current_workspace st now
          = some (path, AppClasses.workspace.to_dict ws) := by
  constructor
  · intro w
    rfl
  · intro st now ws path h1 h2
    unfold AppClasses.save_current_workspace
    simp only [h1, h2]

/-- Claim C3 amended witness: at the concrete fixture, the dictionary
written by save carries the password field unchanged. -/
theorem c3_save_writes_cleartext_password_witness :
    AppClasses.save_current_workspace c3st 7
      = some ("pS", AppClasses.workspace.to_dict c3ws)
    ∧ (AppClasses.workspace.to_dict c3ws).pwd = c3ws.pwd :=
  ⟨c3_save_writes_cleartext_password.2 c3st 7 c3ws "pS" rfl (by decide),
    c3_save_writes_cleartext_password.1 c3ws⟩

/-- Claim C4 counterexample: creating a second list named `"Todo"` on a
board that already has one does not fail — `create_list` checks only the
freshly generated `list_id`, never the name, so it appends a second list
and the count grows from 1 to 2.  Its return type never carries a `none`
outcome. -/
theorem c4_counterexample :
    (TempClasses.TBoard.create_list c4b "id2" "Todo" "d").snd.lists.length = 2
    ∧ (TempClasses.TBoard.create_list c4b "id2" "Todo" "d").fst.list_name = "Todo"
    ∧ c4b.lists.length = 1 := by
  decide

/-- Claim C4 (amended): whenever the freshly generated id is not already
on the board — the only collision `create_list` checks — `create_list`
appends a new list and returns it, regardless of any name clash with
existing lists in any case combination. -/
theorem c4_create_list_appends_despite_name_clash :
    ∀ (b : TempClasses.TBoard) (fresh_id nm ds : String),
      (∀ l ∈ b.lists, ¬ l.list_id = fresh_id) →
      (TempClasses.TBoard.create_list b fresh_id nm ds).snd.lists.length
          = b.lists.length + 1
      ∧ (TempClasses.TBoard.create_list b fresh_id nm ds).fst.list_name = nm := by
  intro b fresh_id nm ds h
  have hany : b.lists.any (fun l => l.list_id == fresh_id) = false := by
    rw [Bool.eq_false_iff]
    intro hc
    rw [List.any_eq_true] at hc
    obtain ⟨l, hl, he⟩ := hc
    exact h l hl (by simpa using he)
  constructor
  · simp [TempClasses.TBoard.create_list, TempClasses.TBoard.add_list, hany]
  · rfl

/-- Claim C4 amended witness: at the concrete fixture, creating a list
with a fresh id and a clashing name grows the board. -/
theorem c4_create_list_appends_witness :
    (TempClasses.TBoard.create_list c4b "id9" "todo" "d").snd.lists.length
      = c4b.lists.length + 1 :=
  (c4_create_list_appends_despite_name_clash c4b "id9" "todo" "d" (by decide)).1

/-- Claim C5: restoring an archived card succeeds exactly when the board
still has a list whose name equals the recorded source-list name; when
that list is gone, the restore is rejected, the card entry is permanently
removed from the bin, and the live lists are untouched — the card is
never re-attached anywhere. -/
theorem c5_restore_card_requires_source_list :
    ∀ (b : BinRestore.FBoard) (n : String) (e : BinRestore.CardEntry),
      BinRestore.FBin.find_card_by_name b.bin n = some e →
      ((BinRestore.restore_item b n BinRestore.ItemType.card).snd
          = BinRestore.RestoreOutcome.cardRestored e.source_list
        ↔ (BinRestore.FBoard.find_list_by_name b e.source_list).isSome = true)
      ∧ (BinRestore.FBoard.find_list_by_name b e.source_list = none →
          (BinRestore.restore_item b n BinRestore.ItemType.card).fst.lists = b.lists
          ∧ BinRestore.FBin.find_card_by_name
              (BinRestore.restore_item b n BinRestore.ItemType.card).fst.bin n = none) := by
  intro b n e he
  rcases hf : BinRestore.FBoard.find_list_by_name b e.source_list with _ | l
  · have hr : BinRestore.restore_item b n BinRestore.ItemType.card
        = ({ b with bin := BinRestore.FBin.permanently_delete_card b.bin n },
           BinRestore.RestoreOutcome.cardDeletedSourceMissing e.source_list) := by
      unfold BinRestore.restore_item
      simp only [he, hf]
    rw [hr]
    constructor
    · simp
    · intro _
      constructor
      · rfl
      · show List.find? (fun x => x.card.name == n)
            (List.filter (fun x => !(x.card.name == n)) b.bin.archived_cards) = none
        rw [List.find?_eq_none]
        intro x hx
        have hpx := List.of_mem_filter hx
        simpa using hpx
  · have hr : BinRestore.restore_item b n BinRestore.ItemType.card
        = ({ b with
              bin := BinRestore.FBin.permanently_delete_card b.bin n
              lists := BinRestore.attach_to_first b.lists e.source_list e.card },
           BinRestore.RestoreOutcome.cardRestored e.source_list) := by
      unfold BinRestore.restore_item
      simp only [he, hf]
    rw [hr]
    constructor
    · simp
    · intro h0
      exact absurd h0 (by simp)

/-- Claim C5 witness: at the concrete fixture the source list `"A"` is
gone, so the restore leaves the live lists untouched and removes card
`"X"` from the bin. -/
theorem c5_restore_card_requires_source_list_witness :
    (BinRestore.restore_item c5b "X" BinRestore.ItemType.card).fst.lists = c5b.lists
    ∧ BinRestore.FBin.find_card_by_name
        (BinRestore.restore_item c5b "X" BinRestore.ItemType.card).fst.bin "X" = none :=
  (c5_restore_card_requires_source_list c5b "X"
    { card := c5card, source_list := "A", deleted_at := 0 } (by decide)).2 (by decide)

/-- Claim C6 counterexample: an entry whose location exists as a
directory but lacks the per-workspace data file is kept by
`load_workspaces`, not dropped — the cleanup only ever calls
`os.path.exists`. -/
theorem c6_counterexample :
    (AppClasses.load_workspaces
        (AppClasses.ConfigFileState.jsonDict [("A", AppClasses.RegValue.str "p")])
        c6fs).registry
      = [("A", AppClasses.RegValue.str "p")]
    ∧ c6fs.path_isdir "p" = true
    ∧ c6fs.path_has_data_file "p" = false := by
  decide

/-- Claim C6 (amended): loading the registry drops exactly the entries
whose value is not a string or whose recorded location does not exist on
the filesystem, and rewrites the file exactly when something was dropped;
whether the location is a directory, or contains the per-workspace data
file, is never consulted. -/
theorem c6_cleanup_checks_existence_only :
    ∀ (es : List (String × AppClasses.RegValue)) (fs : AppClasses.RegistryFS),
      (AppClasses.load_workspaces (AppClasses.ConfigFileState.jsonDict es) fs).registry
        = es.filter (fun e =>
            match e.snd with
            | .str s => fs.path_exists s
            | .nonStr => false)
      ∧ (AppClasses.load_workspaces (AppClasses.ConfigFileState.jsonDict es) fs).rewritten
        = decide ((AppClasses.load_workspaces
            (AppClasses.ConfigFileState.jsonDict es) fs).registry.length < es.length) := by
  intro es fs
  constructor
  · rfl
  · simp [AppClasses.load_workspaces, AppClasses.cleanup_registry]

/-- Claim C7: a registry file holding malformed JSON, valid JSON that is
not a dictionary, or only whitespace makes `load_workspaces` reset the
in-memory registry to empty and rewrite the file; the decode failure is
absorbed, not propagated. -/
theorem c7_malformed_registry_resets :
    ∀ fs : AppClasses.RegistryFS,
      AppClasses.load_workspaces AppClasses.ConfigFileState.badJson fs
        = { registry := [], rewritten := true }
      ∧ AppClasses.load_workspaces AppClasses.ConfigFileState.jsonNonDict fs
        = { registry := [], rewritten := true }
      ∧ AppClasses.load_workspaces AppClasses.ConfigFileState.whitespaceOnly fs
        = { registry := [], rewritten := true } := by
  intro fs
  exact ⟨rfl, rfl, rfl⟩

/-- Claim C8 counterexample: with the open workspace carrying the stale
timestamp 0, a save performed at time 5 writes `last_edited = 0` — the
`app_classes.py` save never stamps the timestamp, so the persisted
`last_edited` does not reflect the save. -/
theorem c8_counterexample :
    AppClasses.save_current_workspace c8st 5
      = some ("pA", AppClasses.workspace.to_dict c8ws)
    ∧ (AppClasses.workspace.to_dict c8ws).last_edited = 0
    ∧ (0 : DateTime) ≠ 5 := by
  decide

/-- Claim C8 (amended): the `temp_classes.py` save stamps `last_edited`
to the save time before serializing, but the `app_classes.py` save
serializes the in-memory timestamp unchanged, whatever the save time
is. -/
theorem c8_save_stamping_by_version :
    (∀ (st : TempClasses.TManager) (now : DateTime) (p : String)
        (d : TempClasses.TWSDict),
        (TempClasses.tc_save_current_workspace st now).fst = some (p, d) →
        d.last_edited = now)
    ∧ (∀ (st : AppClasses.workspace_manager) (now : DateTime)
        (ws : AppClasses.workspace) (p : String) (d : AppClasses.WSDict),
        st.current_workspace_object = some ws →
        AppClasses.save_current_workspace st now = some (p, d) →
        d.last_edited = ws.last_edited) := by
  constructor
  · intro st now p d h
    unfold TempClasses.tc_save_current_workspace at h
    rcases hc : st.current_workspace_object with _ | ws
    · rw [hc] at h
      exact absurd h (by simp)
    · rw [hc] at h
      rcases hl : AppClasses.lookupName st.available_workspaces
          (TempClasses.TWorkspace.update_last_edited ws now).name with _ | path
      · simp only [hl] at h
        exact absurd h (by simp)
      · simp only [hl] at h
        simp only [Prod.mk.injEq, Option.some.injEq] at h
        rw [← h.2]
        rfl
  · intro st now ws p d h1 h2
    unfold AppClasses.save_current_workspace at h2
    rw [h1] at h2
    rcases hl : AppClasses.lookupName st.available_workspaces ws.name with _ | path
    · simp only [hl] at h2
      exact absurd h2 (by simp)
    · simp only [hl, Option.some.injEq, Prod.mk.injEq] at h2
      rw [← h2.2]
      rfl

/-- Claim C8 amended witness: at the concrete fixtures, the temp_classes
save at time 5 persists timestamp 5, while the app_classes save persists
the stale in-memory timestamp. -/
theorem c8_save_stamping_witness :
    c8dexp.last_edited = 5
    ∧ (AppClasses.workspace.to_dict c8ws).last_edited = c8ws.last_edited :=
  ⟨c8_save_stamping_by_version.1 c8tst 5 "pA" c8dexp (by decide),
    c8_save_stamping_by_version.2 c8st 5 c8ws "pA" (AppClasses.workspace.to_dict c8ws)
      rfl (by decide)⟩

/-- Claim C9: when opening a password-protected workspace, only the first
`MAX_PASSWORD_ATTEMPTS` inputs are ever consumed (so a correct password
beyond the budget is ignored, exactly like a wrong final attempt), any
failed open leaves the manager state — in particular the open-workspace
slot — unchanged, and if every consumed attempt is the `"CANCEL"`
sentinel or fails the password check, the open returns no workspace. -/
theorem c9_password_retry_budget :
    ∀ (st : AppClasses.workspace_manager) (fs : String → AppClasses.DataFileContent)
      (inputs : List String) (n : String),
      AppClasses.open_workspace st fs inputs n
        = AppClasses.open_workspace st fs
            (inputs.take AppClasses.MAX_PASSWORD_ATTEMPTS) n
      ∧ ((AppClasses.open_workspace st fs inputs n).fst = none →
          (AppClasses.open_workspace st fs inputs n).snd = st)
      ∧ (∀ (p : String) (d : AppClasses.WSDict),
          AppClasses.lookupName st.available_workspaces n = some p →
          fs p = AppClasses.DataFileContent.wsdict d →
          AppClasses.pwdTruthy (AppClasses.workspace.from_dict d).pwd = true →
          (∀ a ∈ inputs.take AppClasses.MAX_PASSWORD_ATTEMPTS,
              a = "CANCEL"
              ∨ AppClasses.workspace.check_pwd (AppClasses.workspace.from_dict d) a
                  = false) →
          (AppClasses.open_workspace st fs inputs n).fst = none) := by
  intro st fs inputs n
  refine ⟨?_, ?_, ?_⟩
  · rcases hl : AppClasses.lookupName st.available_workspaces n with _ | p
    · rw [open_workspace_no_entry st fs inputs n hl,
        open_workspace_no_entry st fs (inputs.take AppClasses.MAX_PASSWORD_ATTEMPTS) n hl]
    · rcases hf : fs p with _ | _ | d
      · rw [open_workspace_file_missing st fs inputs n p hl hf,
          open_workspace_file_missing st fs
            (inputs.take AppClasses.MAX_PASSWORD_ATTEMPTS) n p hl hf]
      · rw [open_workspace_file_badjson st fs inputs n p hl hf,
          open_workspace_file_badjson st fs
            (inputs.take AppClasses.MAX_PASSWORD_ATTEMPTS) n p hl hf]
      · rw [open_workspace_file_wsdict st fs inputs n p d hl hf,
          open_workspace_file_wsdict st fs
            (inputs.take AppClasses.MAX_PASSWORD_ATTEMPTS) n p d hl hf,
          pwd_loop_take (AppClasses.workspace.from_dict d)
            AppClasses.MAX_PASSWORD_ATTEMPTS inputs]
  · intro h
    rcases hl : AppClasses.lookupName st.available_workspaces n with _ | p
    · rw [open_workspace_no_entry st fs inputs n hl]
    · rcases hf : fs p with _ | _ | d
      · rw [open_workspace_file_missing st fs inputs n p hl hf]
      · rw [open_workspace_file_badjson st fs inputs n p hl hf]
      · rw [open_workspace_file_wsdict st fs inputs n p d hl hf] at h ⊢
        cases ht : AppClasses.pwdTruthy (AppClasses.workspace.from_dict d).pwd <;>
          cases hp : AppClasses.pwd_loop (AppClasses.workspace.from_dict d)
            AppClasses.MAX_PASSWORD_ATTEMPTS inputs <;>
          simp [ht, hp] at h ⊢
  · intro p d hl hf ht hb
    rw [open_workspace_file_wsdict st fs inputs n p d hl hf]
    have hloop := pwd_loop_all_bad (AppClasses.workspace.from_dict d)
      AppClasses.MAX_PASSWORD_ATTEMPTS inputs hb
    simp [ht, hloop]

/-- Claim C9 witness: with password `"pw"` stored, three wrong attempts
followed by the correct password still fail the open — the fourth input
is beyond the retry budget and is never consumed. -/
theorem c9_password_retry_budget_witness :
    (AppClasses.open_workspace c9st c9fs ["x", "CANCEL", "z", "pw"] "B").fst = none :=
  (c9_password_retry_budget c9st c9fs ["x", "CANCEL", "z", "pw"] "B").2.2 "pB" c9d
    (by decide) (by decide) (by decide) (by decide)

/-- Claim C10: a stored workspace whose persisted password field is the
empty string opens exactly like one with no password — no prompt input is
consumed and the open succeeds, for every input stream — and a
successful `set_pwd` with an empty new password stores no password at
all. -/
theorem c10_empty_password_is_no_password :
    (∀ (st : AppClasses.workspace_manager) (fs : String → AppClasses.DataFileContent)
        (inputs : List String) (n p : String) (d : AppClasses.WSDict),
        AppClasses.lookupName st.available_workspaces n = some p →
        fs p = AppClasses.DataFileContent.wsdict d →
        d.pwd = some "" →
        AppClasses.open_workspace st fs inputs n
          = (some (AppClasses.workspace.from_dict d),
             { st with
                current_workspace_object := some (AppClasses.workspace.from_dict d) }))
    ∧ (∀ (w : AppClasses.workspace) (old : Option String) (now : DateTime),
        (AppClasses.workspace.set_pwd w "" old now).fst = true →
        (AppClasses.workspace.set_pwd w "" old now).snd.pwd = none) := by
  constructor
  · intro st fs inputs n p d hl hf hpwd
    rw [open_workspace_file_wsdict st fs inputs n p d hl hf]
    have ht : AppClasses.pwdTruthy (AppClasses.workspace.from_dict d).pwd = false := by
      have hdp : (AppClasses.workspace.from_dict d).pwd = d.pwd := rfl
      rw [hdp, hpwd]
      rfl
    simp [ht]
  · intro w old now h
    unfold AppClasses.workspace.set_pwd at h ⊢
    rcases hw : w.pwd with _ | q
    · simp only [hw] at h ⊢
      simp [AppClasses.workspace.update_last_edited]
    · simp only [hw] at h ⊢
      rcases old with _ | o
      · exact absurd h (by simp)
      · cases hc : AppClasses.workspace.check_pwd w o <;>
          simp [hc, AppClasses.workspace.update_last_edited] at h ⊢

/-- Claim C10 witness: at the concrete fixture with persisted password
`""`, the open succeeds while ignoring the input stream, and removing the
password by setting `""` stores none. -/
theorem c10_empty_password_witness :
    AppClasses.open_workspace c10st c10fs ["unused"] "E"
      = (some (AppClasses.workspace.from_dict c10d),
         { c10st with
            current_workspace_object := some (AppClasses.workspace.from_dict c10d) })
    ∧ (AppClasses.workspace.set_pwd
        (AppClasses.workspace.from_dict c10d) "" (some "") 9).snd.pwd = none :=
  ⟨c10_empty_password_is_no_password.1 c10st c10fs ["unused"] "E" "pE" c10d
      (by decide) (by decide) rfl,
    c10_empty_password_is_no_password.2 (AppClasses.workspace.from_dict c10d)
      (some "") 9 (by decide)⟩
